import Mathlib

/-!
Verification of the authentication/authorization core and database adapter
abstraction of the school-management backend (`backend/app/core/security.py`,
`backend/app/routes/auth.py`, `backend/app/routes/users.py`,
`backend/app/database/base.py`), shallowly embedded in Lean 4.

Modelling conventions:
* Python `dict` values flowing through the routes are association lists
  `Doc := List (String × Value)` with unique keys maintained by `dictSet`.
* Timestamps are epoch seconds (`Nat`); `datetime.now(timezone.utc)` becomes
  an explicit `now : Nat` argument threaded to each function that reads the
  clock.
* Exceptions raised by handlers are `Except HTTPErr _` results; an
  `HTTPException(status_code, detail)` is the record `⟨status, detail⟩`.
* External libraries (bcrypt, pyjwt, fastapi's HTTPBearer) are modelled at
  their interface boundary, faithful to their documented behaviour; each such
  model carries a doc comment saying what it stands for.
-/

set_option autoImplicit false

/-- A JSON-ish value stored in a document / carried in a JWT payload.
Datetimes serialised with `.isoformat()` appear as `vStr`; numeric claim
values such as `exp`/`iat` appear as `vNat` epoch seconds. -/
inductive Value where
  | vStr : String → Value
  | vNat : Nat → Value
  | vBool : Bool → Value
  | vNull : Value
deriving DecidableEq, Repr

/-- A Python `dict` (a route payload, a stored record, a JWT claim set). -/
abbrev Doc := List (String × Value)

/-- `d[k]` lookup: first binding of `k` (keys are unique in documents built
by `dictSet`, so "first" is "the" binding). -/
def dictGet? : Doc → String → Option Value
  | [], _ => none
  | (k', v') :: rest, k => if k' = k then some v' else dictGet? rest k

/-- `d[k] = v` assignment with Python `dict` semantics: overwrite the
existing binding in place, else append at the end. -/
def dictSet : Doc → String → Value → Doc
  | [], k, v => [(k, v)]
  | (k', v') :: rest, k, v =>
      if k' = k then (k, v) :: rest else (k', v') :: dictSet rest k v

/-- Python `d.update(pairs)` / MongoDB `$set`: assign every pair in order. -/
def dictUpdate (d : Doc) (upd : Doc) : Doc :=
  upd.foldl (fun acc kv => dictSet acc kv.1 kv.2) d

/-- Python `del d[k]` / `d.pop(k, None)`: remove the binding of `k`. -/
def eraseKey (d : Doc) (k : String) : Doc :=
  d.filter (fun kv => kv.1 ≠ k)

theorem dictGet?_set_self (d : Doc) (k : String) (v : Value) :
    dictGet? (dictSet d k v) k = some v := by
  induction d with
  | nil => simp [dictSet, dictGet?]
  | cons kv rest ih =>
      by_cases h : kv.1 = k
      · simp [dictSet, dictGet?, h]
      · simp [dictSet, dictGet?, h, ih]

theorem dictGet?_set_ne (d : Doc) (k k' : String) (v : Value) (h : k' ≠ k) :
    dictGet? (dictSet d k v) k' = dictGet? d k' := by
  have h' : k ≠ k' := Ne.symm h
  induction d with
  | nil => simp [dictSet, dictGet?, h']
  | cons kv rest ih =>
      by_cases hk : kv.1 = k
      · subst hk
        simp [dictSet, dictGet?, h']
      · by_cases hk' : kv.1 = k'
        · simp [dictSet, dictGet?, hk, hk', h]
        · simp [dictSet, dictGet?, hk, hk', ih]

/-- Keys untouched by an update keep their old value. -/
theorem dictGet?_update_notMem (d : Doc) (upd : Doc) (k : String)
    (h : k ∉ upd.map Prod.fst) :
    dictGet? (dictUpdate d upd) k = dictGet? d k := by
  induction upd generalizing d with
  | nil => rfl
  | cons kv rest ih =>
      simp only [List.map_cons, List.mem_cons] at h
      push_neg at h
      have step : dictUpdate d (kv :: rest) = dictUpdate (dictSet d kv.1 kv.2) rest := rfl
      rw [step, ih _ h.2, dictGet?_set_ne _ _ _ _ h.1]

/-- A key supplied by a duplicate-free update ends up bound to its supplied
value (Python dicts have unique keys, hence the `Nodup` hypothesis). -/
theorem dictGet?_update_mem (d : Doc) (upd : Doc) (k : String) (v : Value)
    (hnd : (upd.map Prod.fst).Nodup) (h : dictGet? upd k = some v) :
    dictGet? (dictUpdate d upd) k = some v := by
  induction upd generalizing d with
  | nil => simp [dictGet?] at h
  | cons kv rest ih =>
      simp only [List.map_cons, List.nodup_cons] at hnd
      have step : dictUpdate d (kv :: rest) = dictUpdate (dictSet d kv.1 kv.2) rest := rfl
      by_cases hk : kv.1 = k
      · subst hk
        have h2 : kv.2 = v := by simpa [dictGet?] using h
        rw [step, dictGet?_update_notMem _ _ _ hnd.1, dictGet?_set_self, h2]
      · simp only [dictGet?, if_neg hk] at h
        rw [step, ih _ hnd.2 h]

theorem dictGet?_eraseKey_self (d : Doc) (k : String) :
    dictGet? (eraseKey d k) k = none := by
  induction d with
  | nil => rfl
  | cons kv rest ih =>
      by_cases h : kv.1 = k
      · simpa [eraseKey, h] using ih
      · simpa [eraseKey, dictGet?, h] using ih

theorem dictGet?_eraseKey_ne (d : Doc) (k k' : String) (h : k' ≠ k) :
    dictGet? (eraseKey d k) k' = dictGet? d k' := by
  have h' : k ≠ k' := Ne.symm h
  induction d with
  | nil => rfl
  | cons kv rest ih =>
      by_cases hk : kv.1 = k
      · simpa [eraseKey, List.filter_cons, hk, dictGet?, h'] using ih
      · by_cases hk' : kv.1 = k'
        · simp [eraseKey, List.filter_cons, hk, dictGet?, hk', h]
        · simpa [eraseKey, List.filter_cons, hk, dictGet?, hk'] using ih

/-! ### Configuration defaults (`app/core/config.py`)

Settings are read once at startup from the environment; the claims reference
the in-code defaults, which are embedded below.  The signing secret has no
default (it is env-provided); it is embedded as an abstract constant whose
concrete text is never relevant — only equality with itself / inequality
with other keys is. -/

/-- Abstract stand-in for the env-provided `settings.JWT_SECRET_KEY`. -/
def JWT_SECRET_KEY : String := "env:JWT_SECRET_KEY"

/-- `settings.JWT_ALGORITHM` default. -/
def JWT_ALGORITHM : String := "HS256"

/-- `settings.JWT_ACCESS_TOKEN_EXPIRE_MINUTES` default. -/
def JWT_ACCESS_TOKEN_EXPIRE_MINUTES : Nat := 30

/-- `settings.JWT_REFRESH_TOKEN_EXPIRE_DAYS` default. -/
def JWT_REFRESH_TOKEN_EXPIRE_DAYS : Nat := 7

/-- `settings.PASSWORD_MIN_LENGTH` default. -/
def PASSWORD_MIN_LENGTH : Nat := 8

/-- `HTTPException(status_code, detail)`. -/
structure HTTPErr where
  status : Nat
  detail : String
deriving DecidableEq, Repr

/-- `datetime.isoformat()` of a timestamp, with timestamps abstracted to
epoch seconds: only its injectivity in the timestamp matters here. -/
def isoformat (t : Nat) : String := toString t

/-! ### bcrypt (external library, modelled at its interface)

`bcrypt.checkpw(pw, h)` parses `h` as a modular-crypt-format hash; when `h`
is not a well-formed bcrypt hash it raises `ValueError("Invalid salt")`,
otherwise it returns the boolean digest comparison.  The digest itself is
modelled symbolically: a well-formed hash is `"$2b$12$" ++ s`, and
`hashpw` of a password `p` is the well-formed hash determined by `p`
(salting/cost are irrelevant to the control flow verified here). -/

/-- Whether a string parses as a bcrypt hash (symbolic model): it carries
the bcrypt version/cost salt header. -/
def bcryptWellFormed (h : String) : Bool := h.data.take 7 == "$2b$12$".data

/-- Symbolic model of `bcrypt.hashpw(p, gensalt(rounds))`. -/
def bcryptHashpw (p : String) : String := "$2b$12$" ++ p

/-- Model of `bcrypt.checkpw`: `ValueError` on a malformed hash, boolean
comparison otherwise.  The error value is the exception's message. -/
def bcryptCheckpw (p h : String) : Except String Bool :=
  if bcryptWellFormed h then .ok (h = bcryptHashpw p) else .error "Invalid salt"

namespace PasswordHandler

/-- `PasswordHandler.hash_password` (security.py lines 19-24). -/
def hash_password (password : String) : String := bcryptHashpw password

/-- `PasswordHandler.verify_password` (security.py lines 26-32): a direct
call to `bcrypt.checkpw` with no exception handling, so a `ValueError`
raised on a malformed hash propagates to the caller. -/
def verify_password (plain_password hashed_password : String) :
    Except String Bool :=
  bcryptCheckpw plain_password hashed_password

/-- The fixed punctuation set of security.py line 42. -/
def specialChars : String := "!@#$%^&*()_+-=[]\x7b\x7d|;:,.<>?"

/-- `PasswordHandler.validate_password_strength` (security.py lines 34-51).
Character classes (`str.isupper`, `str.isdigit`) are modelled over the
ASCII range, which covers every password the spec's claims mention. -/
def validate_password_strength (password : String) : Bool × String :=
  if password.length < PASSWORD_MIN_LENGTH then
    (false, "Password must be at least " ++ toString PASSWORD_MIN_LENGTH ++ " characters")
  else
    let has_upper := password.data.any Char.isUpper
    let has_digit := password.data.any Char.isDigit
    let has_special := password.data.any specialChars.data.contains
    if ¬ has_upper then
      (false, "Password must contain at least one uppercase letter")
    else if ¬ has_digit then
      (false, "Password must contain at least one number")
    else if ¬ has_special then
      (false, "Password must contain at least one special character")
    else
      (true, "Password is strong")

end PasswordHandler

/-! ### pyjwt (external library, modelled at its interface)

A signed token is modelled as its payload together with the signing key and
algorithm used to produce it; `jwt.decode(tok, key, algorithms=[alg])`
succeeds iff the key and algorithm match (otherwise `JWTError`), and raises
`ExpiredSignatureError` when the numeric `exp` claim is ≤ the current time
(pyjwt's `_validate_exp` with zero leeway). -/

/-- A JWT as produced by `jwt.encode(payload, key, algorithm)`. -/
structure Jwt where
  payload : Doc
  key : String
  alg : String
deriving DecidableEq, Repr

inductive JwtError where
  /-- `jwt.ExpiredSignatureError` -/
  | expiredSignature : JwtError
  /-- any other `jwt.JWTError` (bad signature, malformed, wrong algorithm) -/
  | invalid : JwtError
deriving DecidableEq, Repr

/-- Model of `jwt.decode(tok, key, algorithms=[alg])` at time `now`. -/
def jwtDecode (tok : Jwt) (key alg : String) (now : Nat) :
    Except JwtError Doc :=
  if tok.key = key ∧ tok.alg = alg then
    match dictGet? tok.payload "exp" with
    | some (.vNat e) => if e ≤ now then .error .expiredSignature else .ok tok.payload
    | some _ => .error .invalid
    | none => .ok tok.payload
  else .error .invalid

namespace JWTHandler

/-- `JWTHandler.create_access_token` (security.py lines 57-80).
`expires_delta` is in seconds; `none` selects the configured default of
`JWT_ACCESS_TOKEN_EXPIRE_MINUTES` minutes. -/
def create_access_token (data : Doc) (expires_delta : Option Nat) (now : Nat) : Jwt :=
  let expire := match expires_delta with
    | some delta => now + delta
    | none => now + JWT_ACCESS_TOKEN_EXPIRE_MINUTES * 60
  { payload :=
      dictUpdate data
        [("exp", .vNat expire), ("iat", .vNat now), ("type", .vStr "access")],
    key := JWT_SECRET_KEY,
    alg := JWT_ALGORITHM }

/-- `JWTHandler.create_refresh_token` (security.py lines 82-101). -/
def create_refresh_token (data : Doc) (now : Nat) : Jwt :=
  let expire := now + JWT_REFRESH_TOKEN_EXPIRE_DAYS * 86400
  { payload :=
      dictUpdate data
        [("exp", .vNat expire), ("iat", .vNat now), ("type", .vStr "refresh")],
    key := JWT_SECRET_KEY,
    alg := JWT_ALGORITHM }

/-- `JWTHandler.decode_token` (security.py lines 103-122): decode with the
configured secret and algorithm.  `ExpiredSignatureError` is caught and
converted to `HTTPException(401, "Token has expired")`.  The second clause,
`except jwt.JWTError:` (line 118), names an attribute PyJWT does not define
(its base exception is `PyJWTError`), so when any other decode failure —
invalid signature, malformed token, wrong algorithm — reaches it, evaluating
`jwt.JWTError` raises `AttributeError`; nothing catches it, and the global
exception handler (server.py lines 141-152) surfaces it as a 500
"Internal server error" response.  The intended
`HTTPException(401, "Could not validate credentials")` is dead code. -/
def decode_token (token : Jwt) (now : Nat) : Except HTTPErr Doc :=
  match jwtDecode token JWT_SECRET_KEY JWT_ALGORITHM now with
  | .ok payload => .ok payload
  | .error .expiredSignature => .error ⟨401, "Token has expired"⟩
  | .error .invalid => .error ⟨500, "Internal server error"⟩

end JWTHandler

/-! ### Revocation registry (`TokenBlacklist`, security.py lines 149-163)

The process-local `set` is modelled as an explicit `List Jwt` threaded
through the handlers that touch it. -/

namespace TokenBlacklist

/-- `TokenBlacklist.add_token` (security.py lines 154-158).  The `expires_at`
argument is accepted and ignored, as in the source (the TODO Redis TTL). -/
def add_token (blacklist : List Jwt) (token : Jwt) (expires_at : Nat) : List Jwt :=
  let _ := expires_at
  if token ∈ blacklist then blacklist else token :: blacklist

/-- `TokenBlacklist.is_blacklisted` (security.py lines 160-163). -/
def is_blacklisted (blacklist : List Jwt) (token : Jwt) : Bool :=
  blacklist.contains token

end TokenBlacklist

/-! ### Access Control Gate (security.py lines 166-198)

`get_current_user` depends on `security = HTTPBearer()` (security.py line
13), which is fastapi's bearer-scheme extractor with `auto_error=True`. -/

/-- The Authorization header of an incoming request, as seen by
`fastapi.security.HTTPBearer`: absent, present but not a well-formed
`Bearer <credentials>` value, or carrying bearer credentials. -/
inductive AuthHeader where
  | missing : AuthHeader
  | malformed : AuthHeader
  | bearer : Jwt → AuthHeader

/-- Models `fastapi.security.HTTPBearer.__call__` with `auto_error=True`
(the default, used at security.py line 13): a missing Authorization header
raises `HTTPException(403, "Not authenticated")`, a non-Bearer scheme or
empty credentials raises `HTTPException(403, "Invalid authentication
credentials")`, and a well-formed header yields the credentials. -/
def httpBearer : AuthHeader → Except HTTPErr Jwt
  | .missing => .error ⟨403, "Not authenticated"⟩
  | .malformed => .error ⟨403, "Invalid authentication credentials"⟩
  | .bearer tok => .ok tok

/-- `get_current_user` (security.py lines 166-185), from the point where
`HTTPBearer` has produced credentials: blacklist check, then decode, then
the `type == "access"` check. -/
def get_current_user (token : Jwt) (blacklist : List Jwt) (now : Nat) :
    Except HTTPErr Doc :=
  if TokenBlacklist.is_blacklisted blacklist token then
    .error ⟨401, "Token has been revoked"⟩
  else
    match JWTHandler.decode_token token now with
    | .error e => .error e
    | .ok payload =>
        if dictGet? payload "type" ≠ some (.vStr "access") then
          .error ⟨401, "Invalid token type"⟩
        else
          .ok payload

/-- The full gate as wired by `Depends(security)`: header extraction,
then `get_current_user`. -/
def accessGate (h : AuthHeader) (blacklist : List Jwt) (now : Nat) :
    Except HTTPErr Doc :=
  (httpBearer h).bind (fun tok => get_current_user tok blacklist now)

/-- `require_role(allowed_roles)` (security.py lines 188-198), applied after
`get_current_user` to a presented token: `current_user.get("role")` not in
the allow-list raises `HTTPException(403, "Insufficient permissions")`. -/
def require_role (allowed_roles : List String) (token : Jwt)
    (blacklist : List Jwt) (now : Nat) : Except HTTPErr Doc :=
  (get_current_user token blacklist now).bind (fun current_user =>
    match dictGet? current_user "role" with
    | some (.vStr r) =>
        if allowed_roles.contains r then .ok current_user
        else .error ⟨403, "Insufficient permissions"⟩
    | _ => .error ⟨403, "Insufficient permissions"⟩)

/-! ### Database adapters (`app/database/base.py`)

The logical database state is a map from collection name to the list of
stored documents, in insertion order.  MongoDB's generated `_id` is not
part of the model: `find_one`/`find_many` project it away in the source
(`{"_id": 0}`), and `insert_one`'s returned id is irrelevant to the claims. -/

/-- Database state: collection name → stored documents. -/
abbrev Store := List (String × List Doc)

/-- The documents of a collection (empty when absent). -/
def Store.coll (s : Store) (c : String) : List Doc :=
  match s with
  | [] => []
  | (c', docs) :: rest => if c' = c then docs else Store.coll rest c

/-- Replace the contents of a collection. -/
def Store.setColl (s : Store) (c : String) (docs : List Doc) : Store :=
  match s with
  | [] => [(c, docs)]
  | (c', docs') :: rest =>
      if c' = c then (c, docs) :: rest else (c', docs') :: Store.setColl rest c docs

/-- MongoDB query matching for the equality-only queries the routes issue:
every key named by the query must be present with the queried value. -/
def docMatches (query : Doc) (d : Doc) : Bool :=
  query.all (fun kv => dictGet? d kv.1 = some kv.2)

namespace MongoDBAdapter

/-- `MongoDBAdapter.insert_one` (base.py lines 73-76). -/
def insert_one (s : Store) (collection : String) (document : Doc) : Store × String :=
  (s.setColl collection (s.coll collection ++ [document]), "mongo_id")

/-- `MongoDBAdapter.find_one` (base.py lines 78-81): first stored document
matching the query, `_id` projected away. -/
def find_one (s : Store) (collection : String) (query : Doc) : Option Doc :=
  (s.coll collection).find? (docMatches query)

/-- `MongoDBAdapter.find_many` (base.py lines 83-86). -/
def find_many (s : Store) (collection : String) (query : Doc) (limit : Nat) : List Doc :=
  ((s.coll collection).filter (docMatches query)).take limit

/-- `$set` of an update document onto a stored document. -/
def applySet (d upd : Doc) : Doc := dictUpdate d upd

/-- Update the first matching document; the boolean is Mongo's
`modified_count > 0`, i.e. whether the matched document actually changed. -/
def updateDocs (docs : List Doc) (query upd : Doc) : List Doc × Bool :=
  match docs with
  | [] => ([], false)
  | d :: rest =>
      if docMatches query d then
        ((applySet d upd) :: rest, applySet d upd ≠ d)
      else
        let (rest', b) := updateDocs rest query upd
        (d :: rest', b)

/-- `MongoDBAdapter.update_one` (base.py lines 88-91): `$set` on the first
matching document, returning `modified_count > 0`. -/
def update_one (s : Store) (collection : String) (query upd : Doc) : Store × Bool :=
  let (docs', b) := updateDocs (s.coll collection) query upd
  (s.setColl collection docs', b)

/-- Remove the first matching document, reporting whether one was removed. -/
def deleteDocs (docs : List Doc) (query : Doc) : List Doc × Bool :=
  match docs with
  | [] => ([], false)
  | d :: rest =>
      if docMatches query d then (rest, true)
      else
        let (rest', b) := deleteDocs rest query
        (d :: rest', b)

/-- `MongoDBAdapter.delete_one` (base.py lines 93-96): `deleted_count > 0`. -/
def delete_one (s : Store) (collection : String) (query : Doc) : Store × Bool :=
  let (docs', b) := deleteDocs (s.coll collection) query
  (s.setColl collection docs', b)

end MongoDBAdapter

namespace PostgreSQLAdapter

/-- `PostgreSQLAdapter.insert_one` (base.py lines 146-149): the source is an
acknowledged stub — it stores nothing and returns `"postgres_id"`. -/
def insert_one (s : Store) (collection : String) (document : Doc) : Store × String :=
  let _ := collection
  let _ := document
  (s, "postgres_id")

/-- `PostgreSQLAdapter.find_one` (base.py lines 151-153): always `None`. -/
def find_one (s : Store) (collection : String) (query : Doc) : Option Doc :=
  let _ := s
  let _ := collection
  let _ := query
  none

/-- `PostgreSQLAdapter.find_many` (base.py lines 155-157): always `[]`. -/
def find_many (s : Store) (collection : String) (query : Doc) (limit : Nat) : List Doc :=
  let _ := s
  let _ := collection
  let _ := query
  let _ := limit
  []

/-- `PostgreSQLAdapter.update_one` (base.py lines 159-161): always `False`. -/
def update_one (s : Store) (collection : String) (query upd : Doc) : Store × Bool :=
  let _ := collection
  let _ := query
  let _ := upd
  (s, false)

/-- `PostgreSQLAdapter.delete_one` (base.py lines 163-165): always `False`. -/
def delete_one (s : Store) (collection : String) (query : Doc) : Store × Bool :=
  let _ := collection
  let _ := query
  (s, false)

end PostgreSQLAdapter

/-! ### pyotp (external library, modelled at its interface)

`TOTP(secret).verify(code, valid_window=1)` accepts exactly the codes for
the current 30-second step and one step on either side.  The derived code is
modelled symbolically as a function of the secret and the step index. -/

/-- The OTP derived from `secret` at 30-second step `step` (symbolic). -/
def totpAt (secret : String) (step : Nat) : String :=
  "totp:" ++ secret ++ ":" ++ toString step

/-- `TwoFactorAuth.verify_totp` (security.py lines 142-146):
`pyotp.TOTP(secret).verify(token, valid_window=1)`. -/
def verify_totp (secret token : String) (now : Nat) : Bool :=
  let step := now / 30
  token = totpAt secret step ∨ token = totpAt secret (step + 1) ∨
    (0 < step ∧ token = totpAt secret (step - 1))

/-! ### Route handlers

The routes call the startup-selected `db_adapter` (base.py lines 168-179);
the MongoDB backend is the functional one and the handlers are embedded
against it (the relational backend is an acknowledged stub — see the C8
development below).  A `KeyError`/attribute error escaping a handler is
turned into a generic 500 by the global exception handler (server.py lines
141-152); such paths appear as `⟨500, "Internal server error"⟩`. -/

def internalError : HTTPErr := ⟨500, "Internal server error"⟩

/-- The nine `UserRole` constants (models/user.py lines 8-18), in the order
`register_user` lists them (auth.py lines 36-40). -/
def valid_roles : List String :=
  ["superadmin", "admin", "headmaster", "teacher", "student", "parent",
   "finance", "staff", "librarian"]

/-- `UserModel(...).model_dump()` with the datetime fields already
`.isoformat()`-converted as `register_user` does (auth.py lines 78-82);
`freshId` stands for the `uuid.uuid4()` default id. -/
def userModelDoc (freshId email username password_hash role first_name
    last_name : String) (phone : Option String) (now : Nat) : Doc :=
  [("id", .vStr freshId), ("email", .vStr email), ("username", .vStr username),
   ("password_hash", .vStr password_hash), ("role", .vStr role),
   ("first_name", .vStr first_name), ("last_name", .vStr last_name),
   ("phone", match phone with | some p => .vStr p | none => .vNull),
   ("avatar_url", .vNull), ("is_active", .vBool true),
   ("is_verified", .vBool false), ("two_factor_enabled", .vBool false),
   ("two_factor_secret", .vNull), ("last_login", .vNull),
   ("created_at", .vStr (isoformat now)), ("updated_at", .vStr (isoformat now))]

/-- `register_user` (auth.py lines 31-90): role allow-list, duplicate-email
check, strength check, hash, insert, and a response with the
`password_hash` key deleted (auth.py line 88). -/
def register_user (s : Store) (email username password role first_name
    last_name : String) (phone : Option String) (freshId : String)
    (now : Nat) : Except HTTPErr (Doc × Store) :=
  if ¬ valid_roles.contains role then
    .error ⟨400, "Invalid role. Must be one of: " ++ String.intercalate ", " valid_roles⟩
  else
    match MongoDBAdapter.find_one s "users" [("email", .vStr email)] with
    | some _ => .error ⟨400, "Email already registered"⟩
    | none =>
        let chk := PasswordHandler.validate_password_strength password
        if ¬ chk.1 then .error ⟨400, chk.2⟩
        else
          let password_hash := PasswordHandler.hash_password password
          let user := userModelDoc freshId email username password_hash role
            first_name last_name phone now
          let s' := (MongoDBAdapter.insert_one s "users" user).1
          .ok (eraseKey user "password_hash", s')

/-- `TokenResponse` (schemas/auth.py lines 25-30). -/
structure TokenResponse where
  access_token : Jwt
  refresh_token : Jwt
  token_type : String := "bearer"
  expires_in : Nat
deriving DecidableEq, Repr

/-- `login` (auth.py lines 93-161).  Note two facts verified below: the
`RefreshTokenModel` built at lines 144-148 is constructed and then
discarded — no `insert_one` persists it — and its `expires_at` is set to
`datetime.now(timezone.utc)`, i.e. the login instant itself. -/
def login (s : Store) (email password : String) (totp_token : Option String)
    (now : Nat) : Except HTTPErr (TokenResponse × Store) :=
  match MongoDBAdapter.find_one s "users" [("email", .vStr email)] with
  | none => .error ⟨401, "Invalid credentials"⟩
  | some user_dict =>
      match dictGet? user_dict "password_hash" with
      | some (.vStr stored_hash) =>
          (match PasswordHandler.verify_password password stored_hash with
          | .error _ => .error internalError
          | .ok false => .error ⟨401, "Invalid credentials"⟩
          | .ok true =>
              let is_active := match dictGet? user_dict "is_active" with
                | some (.vBool b) => b
                | _ => true
              if is_active = false then .error ⟨403, "Account is inactive"⟩
              else
                let twofa := match dictGet? user_dict "two_factor_enabled" with
                  | some (.vBool b) => b
                  | _ => false
                let step2fa : Except HTTPErr Unit :=
                  if twofa then
                    match totp_token with
                    | none => .error ⟨400, "2FA token required"⟩
                    | some code =>
                        match dictGet? user_dict "two_factor_secret" with
                        | some (.vStr secret) =>
                            if verify_totp secret code now then .ok ()
                            else .error ⟨401, "Invalid 2FA token"⟩
                        | _ => .error internalError
                  else .ok ()
                step2fa.bind (fun _ =>
                  match dictGet? user_dict "id", dictGet? user_dict "email",
                      dictGet? user_dict "role" with
                  | some idv, some emailv, some rolev =>
                      let token_data : Doc :=
                        [("user_id", idv), ("email", emailv), ("role", rolev)]
                      let access_token := JWTHandler.create_access_token token_data none now
                      let refresh_token := JWTHandler.create_refresh_token token_data now
                      let _refresh_token_model : Doc :=
                        [("user_id", idv), ("token", .vStr "opaque"),
                         ("expires_at", .vStr (isoformat now))]
                      let s' := (MongoDBAdapter.update_one s "users"
                        [("id", idv)]
                        [("last_login", .vStr (isoformat now))]).1
                      .ok ({ access_token := access_token,
                             refresh_token := refresh_token,
                             expires_in := JWT_ACCESS_TOKEN_EXPIRE_MINUTES * 60 }, s')
                  | _, _, _ => .error internalError))
      | _ => .error internalError

/-- The `logout` handler body (auth.py lines 200-207): it returns the
success message and performs no state change — in particular the presented
token is never added to `TokenBlacklist`. -/
def logout (current_user : Doc) (blacklist : List Jwt) : Doc × List Jwt :=
  let _ := current_user
  ([("message", .vStr "Logged out successfully")], blacklist)

/-- `POST /auth/logout` end to end: the `Depends(get_current_user)` gate,
then the handler body, returning the blacklist in force afterwards. -/
def logoutEndpoint (token : Jwt) (blacklist : List Jwt) (now : Nat) :
    Except HTTPErr (Doc × List Jwt) :=
  (get_current_user token blacklist now).map (fun u => logout u blacklist)

/-- The sensitive-field deletion shared by `/auth/me` (auth.py lines
284-288) and the user routes (users.py lines 28-33 and 55-59). -/
def sanitizeUser (user : Doc) : Doc :=
  eraseKey (eraseKey user "password_hash") "two_factor_secret"

/-- `get_current_user_info`, i.e. `GET /auth/me` (auth.py lines 272-290):
look the caller up by the token's `user_id` claim and return the record
without `password_hash`/`two_factor_secret`. -/
def get_current_user_info (s : Store) (current_user : Doc) :
    Except HTTPErr Doc :=
  match dictGet? current_user "user_id" with
  | none => .error internalError
  | some uid =>
      match MongoDBAdapter.find_one s "users" [("id", uid)] with
      | none => .error ⟨404, "User not found"⟩
      | some user => .ok (sanitizeUser user)

/-- `list_users`, i.e. `GET /users/` (users.py lines 11-40), reduced to the
`users` field of its response envelope (`total`/`skip`/`limit` are derived
values).  The query is built exactly as in the source: `role` first when
supplied, then `is_active`. -/
def list_users (s : Store) (role : Option String) (is_active : Option Bool)
    (limit : Nat) : List Doc :=
  let query : Doc :=
    (match role with | some r => [("role", .vStr r)] | none => []) ++
    (match is_active with | some b => [("is_active", .vBool b)] | none => [])
  (MongoDBAdapter.find_many s "users" query limit).map sanitizeUser

/-- `get_user`, i.e. `GET /users/{user_id}` (users.py lines 43-61). -/
def get_user (s : Store) (user_id : String) : Except HTTPErr Doc :=
  match MongoDBAdapter.find_one s "users" [("id", .vStr user_id)] with
  | none => .error ⟨404, "User not found"⟩
  | some user => .ok (sanitizeUser user)

/-- The payload actually sent to the database by `update_user`: the
`protected_fields` `id`, `password_hash`, `created_at` popped off
(users.py lines 68-71). -/
def strippedUpdate (update_data : Doc) : Doc :=
  eraseKey (eraseKey (eraseKey update_data "id") "password_hash") "created_at"

/-- `update_user`, i.e. `PATCH /users/{user_id}` (users.py lines 64-81). -/
def update_user (s : Store) (user_id : String) (update_data : Doc) :
    Except HTTPErr (Doc × Store) :=
  let (s', success) := MongoDBAdapter.update_one s "users"
    [("id", .vStr user_id)] (strippedUpdate update_data)
  if success then .ok ([("message", .vStr "User updated successfully")], s')
  else .error ⟨404, "User not found"⟩

/-! ### Helper lemmas -/

theorem sanitizeUser_no_password_hash (user : Doc) :
    dictGet? (sanitizeUser user) "password_hash" = none := by
  unfold sanitizeUser
  rw [dictGet?_eraseKey_ne _ _ _ (by decide), dictGet?_eraseKey_self]

theorem not_mem_keys_eraseKey (d : Doc) (k : String) :
    k ∉ (eraseKey d k).map Prod.fst := by
  intro h
  rcases List.mem_map.mp h with ⟨kv, hmem, hfst⟩
  rcases List.mem_filter.mp hmem with ⟨_, hne⟩
  have hne' : kv.1 ≠ k := by simpa using hne
  exact hne' hfst

theorem mem_keys_eraseKey (d : Doc) (k k' : String)
    (h : k' ∈ (eraseKey d k).map Prod.fst) : k' ∈ d.map Prod.fst := by
  rcases List.mem_map.mp h with ⟨kv, hmem, hfst⟩
  exact List.mem_map.mpr ⟨kv, (List.mem_filter.mp hmem).1, hfst⟩

theorem nodup_keys_eraseKey (d : Doc) (k : String)
    (h : (d.map Prod.fst).Nodup) : ((eraseKey d k).map Prod.fst).Nodup :=
  h.sublist ((List.filter_sublist d).map Prod.fst)

/-- C7: `validate_password_strength` checks length first (against the
configured minimum, default 8), then uppercase, then digit, then symbol,
returning the first failing reason, and succeeds exactly when all four
checks pass; in particular it rejects "Abcdefgh!" (no digit), "abcdefg1!"
(no uppercase), "Abcdefg1" (no symbol) and every 7-character string, and
accepts "Abcdefg1!". -/
theorem C7_validate_password_strength (p : String) :
    (p.length < PASSWORD_MIN_LENGTH →
      PasswordHandler.validate_password_strength p =
        (false, "Password must be at least 8 characters"))
  ∧ (PASSWORD_MIN_LENGTH ≤ p.length → p.data.any Char.isUpper = false →
      PasswordHandler.validate_password_strength p =
        (false, "Password must contain at least one uppercase letter"))
  ∧ (PASSWORD_MIN_LENGTH ≤ p.length → p.data.any Char.isUpper = true →
      p.data.any Char.isDigit = false →
      PasswordHandler.validate_password_strength p =
        (false, "Password must contain at least one number"))
  ∧ (PASSWORD_MIN_LENGTH ≤ p.length → p.data.any Char.isUpper = true →
      p.data.any Char.isDigit = true →
      p.data.any PasswordHandler.specialChars.data.contains = false →
      PasswordHandler.validate_password_strength p =
        (false, "Password must contain at least one special character"))
  ∧ (PasswordHandler.validate_password_strength p = (true, "Password is strong") ↔
      (PASSWORD_MIN_LENGTH ≤ p.length ∧ p.data.any Char.isUpper = true ∧
       p.data.any Char.isDigit = true ∧ p.data.any PasswordHandler.specialChars.data.contains = true))
  ∧ PasswordHandler.validate_password_strength "Abcdefgh!" =
      (false, "Password must contain at least one number")
  ∧ PasswordHandler.validate_password_strength "abcdefg1!" =
      (false, "Password must contain at least one uppercase letter")
  ∧ PasswordHandler.validate_password_strength "Abcdefg1" =
      (false, "Password must contain at least one special character")
  ∧ PasswordHandler.validate_password_strength "Abcdefg1!" =
      (true, "Password is strong") := by
  refine ⟨?_, ?_, ?_, ?_, ?_, ?_, ?_, ?_, ?_⟩
  · intro h
    simp only [PasswordHandler.validate_password_strength, if_pos h]
    exact congrArg (Prod.mk false) (by decide)
  · intro h hu
    simp [PasswordHandler.validate_password_strength, Nat.not_lt.mpr h, hu]
  · intro h hu hd
    simp [PasswordHandler.validate_password_strength, Nat.not_lt.mpr h, hu, hd]
  · intro h hu hd hs
    simp [PasswordHandler.validate_password_strength, Nat.not_lt.mpr h, hu, hd, hs]
  · constructor
    · intro h
      by_cases hl : p.length < PASSWORD_MIN_LENGTH
      · simp [PasswordHandler.validate_password_strength, hl] at h
      · by_cases hu : p.data.any Char.isUpper
        · by_cases hd : p.data.any Char.isDigit
          · by_cases hs : p.data.any PasswordHandler.specialChars.data.contains
            · exact ⟨Nat.not_lt.mp hl, hu, hd, hs⟩
            · simp [PasswordHandler.validate_password_strength, hl, hu, hd,
                Bool.eq_false_iff.mpr hs] at h
          · simp [PasswordHandler.validate_password_strength, hl, hu,
              Bool.eq_false_iff.mpr hd] at h
        · simp [PasswordHandler.validate_password_strength, hl,
            Bool.eq_false_iff.mpr hu] at h
    · rintro ⟨hl, hu, hd, hs⟩
      simp [PasswordHandler.validate_password_strength, Nat.not_lt.mpr hl, hu, hd, hs]
  · decide
  · decide
  · decide
  · decide

/-- Witness for C7: the four ordered-reason branches exercised at the
spec's own example strings. -/
theorem C7_validate_password_strength_witness :
    PasswordHandler.validate_password_strength "Ab1!xyz" =
      (false, "Password must be at least 8 characters")
  ∧ PasswordHandler.validate_password_strength "abcdefg1!" =
      (false, "Password must contain at least one uppercase letter")
  ∧ PasswordHandler.validate_password_strength "Abcdefgh!" =
      (false, "Password must contain at least one number")
  ∧ PasswordHandler.validate_password_strength "Abcdefg1" =
      (false, "Password must contain at least one special character")
  ∧ PasswordHandler.validate_password_strength "Abcdefg1!" =
      (true, "Password is strong") :=
  ⟨(C7_validate_password_strength "Ab1!xyz").1 (by decide),
   (C7_validate_password_strength "abcdefg1!").2.1 (by decide) (by decide),
   (C7_validate_password_strength "Abcdefgh!").2.2.1 (by decide) (by decide) (by decide),
   (C7_validate_password_strength "Abcdefg1").2.2.2.1 (by decide) (by decide) (by decide) (by decide),
   (C7_validate_password_strength "Abcdefg1!").2.2.2.2.1.mpr
     ⟨by decide, by decide, by decide, by decide⟩⟩

/-- C4 counterexample: on the malformed hash string "not-a-hash",
`verify_password` propagates bcrypt's `ValueError("Invalid salt")` — it
does not return `false`, contrary to the claim that it never raises. -/
theorem C4_counterexample :
    PasswordHandler.verify_password "secret" "not-a-hash" = .error "Invalid salt"
  ∧ (Except.error "Invalid salt" : Except String Bool) ≠ .ok false := by
  constructor
  · rfl
  · simp

/-- C4 (amended): for every password `p` and every well-formed bcrypt hash
`h`, `verify_password p h` returns bcrypt's boolean comparison; on a
malformed hash it raises (propagates `ValueError("Invalid salt")`) instead
of returning `false`, because the source wraps `bcrypt.checkpw` in no
exception handler. -/
theorem C4_verify_password_amended (p h : String) :
    (bcryptWellFormed h = true →
      PasswordHandler.verify_password p h = .ok (h = bcryptHashpw p))
  ∧ (bcryptWellFormed h = false →
      PasswordHandler.verify_password p h = .error "Invalid salt") := by
  constructor
  · intro hw
    simp [PasswordHandler.verify_password, bcryptCheckpw, hw]
  · intro hw
    simp [PasswordHandler.verify_password, bcryptCheckpw, hw]

/-- Witness for C4's amended theorem at a well-formed and a malformed hash. -/
theorem C4_verify_password_amended_witness :
    PasswordHandler.verify_password "secret" "$2b$12$secret" =
      .ok ("$2b$12$secret" = bcryptHashpw "secret")
  ∧ PasswordHandler.verify_password "secret" "nope" = .error "Invalid salt" :=
  ⟨(C4_verify_password_amended "secret" "$2b$12$secret").1 (by decide),
   (C4_verify_password_amended "secret" "nope").2 (by decide)⟩

/-- C5: a login naming an unknown email and a login naming an existing user
with a non-matching password produce the identical observable failure —
`HTTPException(401, "Invalid credentials")` — so the response does not
reveal which case occurred. -/
theorem C5_login_indistinguishable
    (s1 s2 : Store) (e1 p1 e2 p2 : String) (t1 t2 : Option String)
    (now1 now2 : Nat) (u : Doc) (stored_hash : String)
    (h1 : MongoDBAdapter.find_one s1 "users" [("email", .vStr e1)] = none)
    (h2 : MongoDBAdapter.find_one s2 "users" [("email", .vStr e2)] = some u)
    (h3 : dictGet? u "password_hash" = some (.vStr stored_hash))
    (h4 : PasswordHandler.verify_password p2 stored_hash = .ok false) :
    login s1 e1 p1 t1 now1 = .error ⟨401, "Invalid credentials"⟩
  ∧ login s2 e2 p2 t2 now2 = .error ⟨401, "Invalid credentials"⟩ := by
  constructor
  · simp [login, h1]
  · simp [login, h2, h3, h4]

/-- Witness for C5: an empty store (no such user) versus a stored alice
with a wrong password. -/
theorem C5_login_indistinguishable_witness :
    login [] "ghost@example.com" "whatever" none 0 =
      .error ⟨401, "Invalid credentials"⟩
  ∧ login
      [("users", [[("email", .vStr "alice@example.com"),
                   ("password_hash", .vStr "$2b$12$Passw0rd!")]])]
      "alice@example.com" "wrong" none 0 =
      .error ⟨401, "Invalid credentials"⟩ :=
  C5_login_indistinguishable
    [] [("users", [[("email", .vStr "alice@example.com"),
                    ("password_hash", .vStr "$2b$12$Passw0rd!")]])]
    "ghost@example.com" "whatever" "alice@example.com" "wrong" none none 0 0
    [("email", .vStr "alice@example.com"),
     ("password_hash", .vStr "$2b$12$Passw0rd!")]
    "$2b$12$Passw0rd!" (by decide) (by decide) (by decide) (by rfl)

/-- C9: every endpoint that returns a user object — the registration
response, `GET /auth/me`, the user listing and the user lookup — returns a
document with no `password_hash` binding, whatever the stored record holds. -/
theorem C9_no_password_hash_returned (s : Store) :
    (∀ email username password role first_name last_name phone freshId now resp s',
        register_user s email username password role first_name last_name
            phone freshId now = .ok (resp, s') →
        dictGet? resp "password_hash" = none)
  ∧ (∀ current_user u, get_current_user_info s current_user = .ok u →
        dictGet? u "password_hash" = none)
  ∧ (∀ role is_active limit u, u ∈ list_users s role is_active limit →
        dictGet? u "password_hash" = none)
  ∧ (∀ user_id u, get_user s user_id = .ok u →
        dictGet? u "password_hash" = none) := by
  refine ⟨?_, ?_, ?_, ?_⟩
  · intro email username password role first_name last_name phone freshId now resp s' hok
    unfold register_user at hok
    split at hok
    · exact absurd hok (by simp)
    · split at hok
      · exact absurd hok (by simp)
      · dsimp only at hok
        split at hok
        · exact absurd hok (by simp)
        · simp only [Except.ok.injEq, Prod.mk.injEq] at hok
          rw [← hok.1]
          exact dictGet?_eraseKey_self _ _
  · intro current_user u hok
    unfold get_current_user_info at hok
    split at hok
    · exact absurd hok (by simp)
    · split at hok
      · exact absurd hok (by simp)
      · simp only [Except.ok.injEq] at hok
        rw [← hok]
        exact sanitizeUser_no_password_hash _
  · intro role is_active limit u hu
    simp only [list_users, List.mem_map] at hu
    rcases hu with ⟨w, _, rfl⟩
    exact sanitizeUser_no_password_hash w
  · intro user_id u hok
    unfold get_user at hok
    split at hok
    · exact absurd hok (by simp)
    · simp only [Except.ok.injEq] at hok
      rw [← hok]
      exact sanitizeUser_no_password_hash _

/-- A stored user record with a password hash, used by several witnesses. -/
def sampleUserDoc : Doc :=
  [("id", .vStr "u1"), ("email", .vStr "alice@example.com"),
   ("password_hash", .vStr "$2b$12$Passw0rd!"), ("role", .vStr "teacher")]

/-- A one-user store, used by several witnesses. -/
def sampleStore : Store := [("users", [sampleUserDoc])]

/-- Witness for C9: all four endpoints evaluated on a concrete store. -/
theorem C9_no_password_hash_returned_witness :
    dictGet? (eraseKey (userModelDoc "u2" "bob@example.com" "bob"
        (PasswordHandler.hash_password "Passw0rd!") "student" "Bob" "Builder"
        none 0) "password_hash") "password_hash" = none
  ∧ dictGet? (sanitizeUser sampleUserDoc) "password_hash" = none :=
  ⟨(C9_no_password_hash_returned sampleStore).1 "bob@example.com" "bob"
      "Passw0rd!" "student" "Bob" "Builder" none "u2" 0
      (eraseKey (userModelDoc "u2" "bob@example.com" "bob"
        (PasswordHandler.hash_password "Passw0rd!") "student" "Bob" "Builder"
        none 0) "password_hash")
      ((MongoDBAdapter.insert_one sampleStore "users"
        (userModelDoc "u2" "bob@example.com" "bob"
          (PasswordHandler.hash_password "Passw0rd!") "student" "Bob" "Builder"
          none 0)).1)
      (by rfl),
   (C9_no_password_hash_returned sampleStore).2.2.2 "u1" (sanitizeUser sampleUserDoc)
      (by rfl)⟩

theorem Store.coll_setColl_self (s : Store) (c : String) (docs : List Doc) :
    Store.coll (Store.setColl s c docs) c = docs := by
  induction s with
  | nil => simp [Store.setColl, Store.coll]
  | cons p rest ih =>
      by_cases h : p.1 = c
      · simp [Store.setColl, Store.coll, h]
      · simp [Store.setColl, Store.coll, h, ih]

/-- `updateDocs` on a collection split around its first match rewrites
exactly that document with `$set` and reports whether it changed. -/
theorem updateDocs_split (pre post : List Doc) (d q upd : Doc)
    (hpre : ∀ d' ∈ pre, docMatches q d' = false)
    (hd : docMatches q d = true) :
    MongoDBAdapter.updateDocs (pre ++ d :: post) q upd =
      (pre ++ MongoDBAdapter.applySet d upd :: post,
       decide (MongoDBAdapter.applySet d upd ≠ d)) := by
  induction pre with
  | nil => simp [MongoDBAdapter.updateDocs, hd]
  | cons a rest ih =>
      have ha : docMatches q a = false := hpre a (List.mem_cons_self _ _)
      have ih' := ih (fun d' hmem => hpre d' (List.mem_cons_of_mem _ hmem))
      simp [MongoDBAdapter.updateDocs, ha, ih']

/-- C10: `update_user` strips `id`, `password_hash` and `created_at` from
the payload before the database update, so the targeted record keeps those
three fields unchanged, while every other supplied key is applied to the
record as given (payload keys are unique, as Python dict keys are). -/
theorem C10_update_user_frame (s : Store) (user_id : String)
    (update_data : Doc) (hnd : (update_data.map Prod.fst).Nodup)
    (pre post : List Doc) (d : Doc)
    (hsplit : Store.coll s "users" = pre ++ d :: post)
    (hpre : ∀ d' ∈ pre, docMatches [("id", .vStr user_id)] d' = false)
    (hd : docMatches [("id", .vStr user_id)] d = true) :
    (∀ msg s', update_user s user_id update_data = .ok (msg, s') →
        Store.coll s' "users" =
          pre ++ MongoDBAdapter.applySet d (strippedUpdate update_data) :: post)
  ∧ dictGet? (MongoDBAdapter.applySet d (strippedUpdate update_data)) "id" =
      dictGet? d "id"
  ∧ dictGet? (MongoDBAdapter.applySet d (strippedUpdate update_data)) "password_hash" =
      dictGet? d "password_hash"
  ∧ dictGet? (MongoDBAdapter.applySet d (strippedUpdate update_data)) "created_at" =
      dictGet? d "created_at"
  ∧ (∀ k v, k ≠ "id" → k ≠ "password_hash" → k ≠ "created_at" →
        dictGet? update_data k = some v →
        dictGet? (MongoDBAdapter.applySet d (strippedUpdate update_data)) k = some v) := by
  have hu : MongoDBAdapter.update_one s "users" [("id", .vStr user_id)]
      (strippedUpdate update_data) =
      (Store.setColl s "users"
        (pre ++ MongoDBAdapter.applySet d (strippedUpdate update_data) :: post),
       decide (MongoDBAdapter.applySet d (strippedUpdate update_data) ≠ d)) := by
    unfold MongoDBAdapter.update_one
    rw [hsplit, updateDocs_split _ _ _ _ _ hpre hd]
  refine ⟨?_, ?_, ?_, ?_, ?_⟩
  · intro msg s' hok
    unfold update_user at hok
    rw [hu] at hok
    dsimp only at hok
    split at hok
    · simp only [Except.ok.injEq, Prod.mk.injEq] at hok
      rw [← hok.2, Store.coll_setColl_self]
    · exact absurd hok (by simp)
  · apply dictGet?_update_notMem
    intro hmem
    exact not_mem_keys_eraseKey _ "id"
      (mem_keys_eraseKey _ _ _ (mem_keys_eraseKey _ _ _ hmem))
  · apply dictGet?_update_notMem
    intro hmem
    exact not_mem_keys_eraseKey _ "password_hash" (mem_keys_eraseKey _ _ _ hmem)
  · apply dictGet?_update_notMem
    intro hmem
    exact not_mem_keys_eraseKey _ "created_at" hmem
  · intro k v hid hph hca hget
    have hstr : dictGet? (strippedUpdate update_data) k = some v := by
      unfold strippedUpdate
      rw [dictGet?_eraseKey_ne _ _ _ hca, dictGet?_eraseKey_ne _ _ _ hph,
        dictGet?_eraseKey_ne _ _ _ hid]
      exact hget
    have hndstr : ((strippedUpdate update_data).map Prod.fst).Nodup :=
      nodup_keys_eraseKey _ _ (nodup_keys_eraseKey _ _ (nodup_keys_eraseKey _ _ hnd))
    exact dictGet?_update_mem _ _ _ _ hndstr hstr

/-- A payload trying to overwrite the protected fields plus the email, for
the C10 witness. -/
def sampleUpdate : Doc :=
  [("email", .vStr "new@example.com"), ("id", .vStr "evil"),
   ("password_hash", .vStr "evil"), ("created_at", .vStr "evil")]

/-- Witness for C10 on a one-user store: the protected fields survive, the
email is applied, and the route's resulting store holds exactly the
rewritten record. -/
theorem C10_update_user_frame_witness :
    Store.coll (Store.setColl sampleStore "users"
        [MongoDBAdapter.applySet sampleUserDoc (strippedUpdate sampleUpdate)]) "users" =
      [] ++ MongoDBAdapter.applySet sampleUserDoc (strippedUpdate sampleUpdate) :: []
  ∧ dictGet? (MongoDBAdapter.applySet sampleUserDoc (strippedUpdate sampleUpdate)) "id" =
      dictGet? sampleUserDoc "id"
  ∧ dictGet? (MongoDBAdapter.applySet sampleUserDoc (strippedUpdate sampleUpdate)) "password_hash" =
      dictGet? sampleUserDoc "password_hash"
  ∧ dictGet? (MongoDBAdapter.applySet sampleUserDoc (strippedUpdate sampleUpdate)) "email" =
      some (.vStr "new@example.com") :=
  ⟨(C10_update_user_frame sampleStore "u1" sampleUpdate (by decide) [] [] sampleUserDoc
      rfl (by simp) (by decide)).1
      [("message", .vStr "User updated successfully")]
      (Store.setColl sampleStore "users"
        [MongoDBAdapter.applySet sampleUserDoc (strippedUpdate sampleUpdate)])
      (by rfl),
   (C10_update_user_frame sampleStore "u1" sampleUpdate (by decide) [] [] sampleUserDoc
      rfl (by simp) (by decide)).2.1,
   (C10_update_user_frame sampleStore "u1" sampleUpdate (by decide) [] [] sampleUserDoc
      rfl (by simp) (by decide)).2.2.1,
   (C10_update_user_frame sampleStore "u1" sampleUpdate (by decide) [] [] sampleUserDoc
      rfl (by simp) (by decide)).2.2.2.2 "email" (.vStr "new@example.com")
      (by decide) (by decide) (by decide) (by decide)⟩

/-- C8: the observable divergence between the two backends on a one-record
store.  The MongoDB backend finds and modifies the stored record; the
PostgreSQL backend — an acknowledged stub ("simplified", "In real
implementation, use SQLAlchemy models") — returns `None`/`[]`/`False` for
every operation and stores nothing, so its `update_one` is not true when
exactly one matching record was modified and its `find_one` does not
return the stored record. -/
theorem C8_postgres_stub_diverges :
    MongoDBAdapter.find_one sampleStore "users" [("id", .vStr "u1")] = some sampleUserDoc
  ∧ PostgreSQLAdapter.find_one sampleStore "users" [("id", .vStr "u1")] = none
  ∧ (MongoDBAdapter.update_one sampleStore "users" [("id", .vStr "u1")]
      [("email", .vStr "new@example.com")]).2 = true
  ∧ (PostgreSQLAdapter.update_one sampleStore "users" [("id", .vStr "u1")]
      [("email", .vStr "new@example.com")]).2 = false
  ∧ MongoDBAdapter.find_many sampleStore "users" [("id", .vStr "u1")] 100 = [sampleUserDoc]
  ∧ PostgreSQLAdapter.find_many sampleStore "users" [("id", .vStr "u1")] 100 = []
  ∧ (MongoDBAdapter.delete_one sampleStore "users" [("id", .vStr "u1")]).2 = true
  ∧ (PostgreSQLAdapter.delete_one sampleStore "users" [("id", .vStr "u1")]).2 = false := by
  refine ⟨by decide, by decide, by decide, by decide, by decide, by decide,
    by decide, by decide⟩

/-- The concrete valid access token exhibiting C1's divergence: issued at
time 0 for alice, checked at time 10 (well before its 1800-second expiry). -/
def c1Token : Jwt :=
  JWTHandler.create_access_token
    [("user_id", .vStr "u1"), ("email", .vStr "alice@example.com"),
     ("role", .vStr "teacher")] none 0

/-- C1: the `logout` handler returns its success message without adding the
presented token to `TokenBlacklist` — the handler body is only the TODO
comment — so the blacklist stays empty, and the very same token still
passes `get_current_user` afterwards; the handler never modifies the
blacklist for any input. -/
theorem C1_logout_does_not_revoke :
    logoutEndpoint c1Token [] 10 =
      .ok ([("message", .vStr "Logged out successfully")], [])
  ∧ TokenBlacklist.is_blacklisted [] c1Token = false
  ∧ get_current_user c1Token [] 10 =
      .ok (dictUpdate
        [("user_id", .vStr "u1"), ("email", .vStr "alice@example.com"),
         ("role", .vStr "teacher")]
        [("exp", .vNat 1800), ("iat", .vNat 0), ("type", .vStr "access")])
  ∧ (∀ current_user blacklist, (logout current_user blacklist).2 = blacklist) := by
  exact ⟨rfl, by decide, rfl, fun _ _ => rfl⟩

/-- The one-user store on which C6's divergence is exhibited: alice is
active, has no 2FA, and her stored hash matches "Passw0rd!". -/
def c6Store : Store :=
  [("users", [[("id", .vStr "u1"), ("email", .vStr "alice@example.com"),
               ("password_hash", .vStr "$2b$12$Passw0rd!"),
               ("role", .vStr "teacher"), ("is_active", .vBool true),
               ("two_factor_enabled", .vBool false)]])]

/-- C6: a fully successful login returns the token pair, yet no
refresh-token record is persisted anywhere: the `refresh_tokens`
collection is empty before and after, and the resulting store still
consists of the `users` collection alone (only `last_login` was written).
The `RefreshTokenModel` built at auth.py lines 144-148 is discarded. -/
theorem C6_refresh_token_not_persisted :
    Store.coll c6Store "refresh_tokens" = []
  ∧ (login c6Store "alice@example.com" "Passw0rd!" none 100).map
      (fun r => Store.coll r.2 "refresh_tokens") = .ok []
  ∧ (login c6Store "alice@example.com" "Passw0rd!" none 100).map
      (fun r => r.2.map Prod.fst) = .ok ["users"] := by
  exact ⟨rfl, rfl, rfl⟩

/-- Decoding a default-ttl access token: expired error once the configured
ttl has elapsed, the stamped payload otherwise. -/
theorem decode_token_create_access_token (data : Doc) (t_issue t_dec : Nat) :
    JWTHandler.decode_token (JWTHandler.create_access_token data none t_issue) t_dec =
      (if t_issue + JWT_ACCESS_TOKEN_EXPIRE_MINUTES * 60 ≤ t_dec then
        .error ⟨401, "Token has expired"⟩
      else
        .ok (dictUpdate data
          [("exp", .vNat (t_issue + JWT_ACCESS_TOKEN_EXPIRE_MINUTES * 60)),
           ("iat", .vNat t_issue), ("type", .vStr "access")])) := by
  have hexp : dictGet? (dictUpdate data
      [("exp", .vNat (t_issue + JWT_ACCESS_TOKEN_EXPIRE_MINUTES * 60)),
       ("iat", .vNat t_issue), ("type", .vStr "access")]) "exp" =
      some (.vNat (t_issue + JWT_ACCESS_TOKEN_EXPIRE_MINUTES * 60)) := by
    apply dictGet?_update_mem
    · simp
    · simp [dictGet?]
  unfold JWTHandler.create_access_token JWTHandler.decode_token jwtDecode
  dsimp only
  rw [if_pos ⟨rfl, rfl⟩, hexp]
  dsimp only
  by_cases hle : t_issue + JWT_ACCESS_TOKEN_EXPIRE_MINUTES * 60 ≤ t_dec
  · rw [if_pos hle, if_pos hle]
  · rw [if_neg hle, if_neg hle]

/-- C3: decoding `create_access_token(c)` before the configured ttl (30
minutes) has elapsed returns `c`'s fields plus `type:"access"` and the
stamped `exp`/`iat`; decoding at or after expiry fails with
`HTTPException(401, "Token has expired")` and never returns claims. -/
theorem C3_access_token_roundtrip (data : Doc) (t_issue t_dec : Nat) :
    (t_dec < t_issue + JWT_ACCESS_TOKEN_EXPIRE_MINUTES * 60 →
      ∃ payload,
        JWTHandler.decode_token (JWTHandler.create_access_token data none t_issue) t_dec
          = .ok payload
        ∧ dictGet? payload "type" = some (.vStr "access")
        ∧ dictGet? payload "exp" =
            some (.vNat (t_issue + JWT_ACCESS_TOKEN_EXPIRE_MINUTES * 60))
        ∧ dictGet? payload "iat" = some (.vNat t_issue)
        ∧ ∀ k, k ≠ "exp" → k ≠ "iat" → k ≠ "type" →
            dictGet? payload k = dictGet? data k)
  ∧ (t_issue + JWT_ACCESS_TOKEN_EXPIRE_MINUTES * 60 ≤ t_dec →
      JWTHandler.decode_token (JWTHandler.create_access_token data none t_issue) t_dec
        = .error ⟨401, "Token has expired"⟩) := by
  constructor
  · intro hlt
    refine ⟨dictUpdate data
      [("exp", .vNat (t_issue + JWT_ACCESS_TOKEN_EXPIRE_MINUTES * 60)),
       ("iat", .vNat t_issue), ("type", .vStr "access")], ?_, ?_, ?_, ?_, ?_⟩
    · rw [decode_token_create_access_token, if_neg (Nat.not_le.mpr hlt)]
    · apply dictGet?_update_mem
      · simp
      · simp [dictGet?]
    · apply dictGet?_update_mem
      · simp
      · simp [dictGet?]
    · apply dictGet?_update_mem
      · simp
      · simp [dictGet?]
    · intro k h1 h2 h3
      apply dictGet?_update_notMem
      intro hmem
      simp only [List.map_cons, List.map_nil, List.mem_cons,
        List.not_mem_nil, or_false] at hmem
      rcases hmem with h | h | h
      · exact h1 h
      · exact h2 h
      · exact h3 h
  · intro hle
    rw [decode_token_create_access_token, if_pos hle]

/-- Witness for C3: a token issued at time 0 decodes at time 60 to its
claims plus the access stamps, and fails as expired at time 1800. -/
theorem C3_access_token_roundtrip_witness :
    (∃ payload,
        JWTHandler.decode_token
          (JWTHandler.create_access_token [("user_id", .vStr "u1")] none 0) 60
          = .ok payload
        ∧ dictGet? payload "type" = some (.vStr "access")
        ∧ dictGet? payload "exp" =
            some (.vNat (0 + JWT_ACCESS_TOKEN_EXPIRE_MINUTES * 60))
        ∧ dictGet? payload "iat" = some (.vNat 0)
        ∧ ∀ k, k ≠ "exp" → k ≠ "iat" → k ≠ "type" →
            dictGet? payload k = dictGet? [("user_id", .vStr "u1")] k)
  ∧ JWTHandler.decode_token
      (JWTHandler.create_access_token [("user_id", .vStr "u1")] none 0) 1800
      = .error ⟨401, "Token has expired"⟩ :=
  ⟨(C3_access_token_roundtrip [("user_id", .vStr "u1")] 0 60).1 (by decide),
   (C3_access_token_roundtrip [("user_id", .vStr "u1")] 0 1800).2 (by decide)⟩

/-- A bearer token signed with the wrong key: its signature verification
fails, so decoding it exercises the broken `except jwt.JWTError` clause. -/
def forgedToken : Jwt :=
  { payload := [("user_id", .vStr "u9"), ("type", .vStr "access")],
    key := "attacker-key",
    alg := JWT_ALGORITHM }

/-- C2 counterexample: two inputs the claim covers do not yield 401.  A
request with no Authorization header is rejected by the framework's bearer
extractor with 403 ("Not authenticated") before the gate runs, and a
presented token with an invalid signature surfaces as a 500 — the
`except jwt.JWTError` clause raises `AttributeError` instead of producing
the 401 — so the claim's "missing/malformed or failed-decode token →
Unauthenticated (401)" is false at both inputs. -/
theorem C2_counterexample :
    accessGate AuthHeader.missing [] 0 = .error ⟨403, "Not authenticated"⟩
  ∧ get_current_user forgedToken [] 0 = .error ⟨500, "Internal server error"⟩
  ∧ (403 : Nat) ≠ 401
  ∧ (500 : Nat) ≠ 401 :=
  ⟨rfl, by rfl, by decide, by decide⟩

/-- The only errors `decode_token` produces: the expiry 401, or the 500
that the broken non-expiry clause turns every other decode failure into. -/
theorem decode_token_error_cases (tok : Jwt) (now : Nat) (e : HTTPErr)
    (h : JWTHandler.decode_token tok now = .error e) :
    e = ⟨401, "Token has expired"⟩ ∨ e = ⟨500, "Internal server error"⟩ := by
  unfold JWTHandler.decode_token at h
  split at h
  · exact absurd h (by simp)
  · injection h with h
    exact Or.inl h.symm
  · injection h with h
    exact Or.inr h.symm

/-- The role predicate `require_role` evaluates on a resolved user:
`current_user.get("role")` must be a string belonging to the allow-list
(a missing or non-string role claim is not in any allow-list). -/
def roleAllowed (current_user : Doc) (allowed_roles : List String) : Bool :=
  match dictGet? current_user "role" with
  | some (.vStr r) => allowed_roles.contains r
  | _ => false

/-- `require_role` is the gate followed by the `roleAllowed` test. -/
theorem require_role_eq (R : List String) (tok : Jwt) (bl : List Jwt) (now : Nat) :
    require_role R tok bl now =
      (get_current_user tok bl now).bind (fun u =>
        cond (roleAllowed u R) (.ok u)
          (.error ⟨403, "Insufficient permissions"⟩)) := by
  unfold require_role
  congr 1
  funext u
  simp only [roleAllowed]
  cases dictGet? u "role" with
  | none => rfl
  | some v =>
      cases v with
      | vStr r =>
          by_cases hr : R.contains r
          · simp [hr]
          · simp [hr]
      | vNat n => rfl
      | vBool b => rfl
      | vNull => rfl

/-- C2 (amended): for every presented bearer token, the gate fails with
Unauthenticated (401) if and only if the token is revoked, expired, or
carries a `type` claim other than `"access"`; any other decode failure
(invalid signature, malformed token, wrong algorithm) instead surfaces as
a 500, because the `except jwt.JWTError` clause names an attribute PyJWT
does not define and the resulting `AttributeError` reaches the global
exception handler; a missing or malformed Authorization header is rejected
with 403 by the framework's bearer extractor before the gate runs.  On
success the gate attaches exactly the decoded claims; a role gate with
allow-list `R` fails with 403 "Insufficient permissions" iff identity
resolution succeeded and the resolved `role` claim is not an allowed role;
and a gate failure propagates unchanged through `require_role`, so the
role check runs only after identity resolution. -/
theorem C2_gate_semantics (tok : Jwt) (bl : List Jwt) (now : Nat) (R : List String) :
    ((∃ e, get_current_user tok bl now = .error e ∧ e.status = 401) ↔
      (TokenBlacklist.is_blacklisted bl tok = true
       ∨ JWTHandler.decode_token tok now = .error ⟨401, "Token has expired"⟩
       ∨ (∃ p, JWTHandler.decode_token tok now = .ok p
            ∧ dictGet? p "type" ≠ some (.vStr "access"))))
  ∧ (TokenBlacklist.is_blacklisted bl tok = false →
      JWTHandler.decode_token tok now = .error ⟨500, "Internal server error"⟩ →
      get_current_user tok bl now = .error ⟨500, "Internal server error"⟩)
  ∧ (∀ e, get_current_user tok bl now = .error e →
        e.status = 401 ∨ e = ⟨500, "Internal server error"⟩)
  ∧ (∀ p, get_current_user tok bl now = .ok p →
        JWTHandler.decode_token tok now = .ok p
        ∧ dictGet? p "type" = some (.vStr "access")
        ∧ TokenBlacklist.is_blacklisted bl tok = false)
  ∧ (require_role R tok bl now = .error ⟨403, "Insufficient permissions"⟩ ↔
      (∃ p, get_current_user tok bl now = .ok p ∧ roleAllowed p R = false))
  ∧ (∀ e, get_current_user tok bl now = .error e →
        require_role R tok bl now = .error e)
  ∧ accessGate AuthHeader.missing bl now = .error ⟨403, "Not authenticated"⟩
  ∧ accessGate AuthHeader.malformed bl now =
      .error ⟨403, "Invalid authentication credentials"⟩
  ∧ accessGate (AuthHeader.bearer tok) bl now = get_current_user tok bl now := by
  refine ⟨?_, ?_, ?_, ?_, ?_, ?_, rfl, rfl, rfl⟩
  · constructor
    · rintro ⟨e, he, hst⟩
      by_cases hb : TokenBlacklist.is_blacklisted bl tok = true
      · exact Or.inl hb
      · have hbf := Bool.eq_false_iff.mpr hb
        cases hdec : JWTHandler.decode_token tok now with
        | error e0 =>
            have hgcu : get_current_user tok bl now = .error e0 := by
              simp [get_current_user, hbf, hdec]
            rw [hgcu] at he
            injection he with h
            rcases decode_token_error_cases tok now e0 hdec with h1 | h1
            · exact Or.inr (Or.inl (by rw [h1]))
            · rw [h1] at h
              rw [← h] at hst
              simp at hst
        | ok p0 =>
            by_cases ht : dictGet? p0 "type" = some (.vStr "access")
            · have hgcu : get_current_user tok bl now = .ok p0 := by
                simp [get_current_user, hbf, hdec, ht]
              rw [hgcu] at he
              exact absurd he (by simp)
            · exact Or.inr (Or.inr ⟨p0, rfl, ht⟩)
    · rintro (hb | hexp | ⟨p0, hdec, ht⟩)
      · exact ⟨⟨401, "Token has been revoked"⟩, by simp [get_current_user, hb], rfl⟩
      · by_cases hb : TokenBlacklist.is_blacklisted bl tok = true
        · exact ⟨⟨401, "Token has been revoked"⟩, by simp [get_current_user, hb], rfl⟩
        · exact ⟨⟨401, "Token has expired"⟩, by
            simp [get_current_user, Bool.eq_false_iff.mpr hb, hexp], rfl⟩
      · by_cases hb : TokenBlacklist.is_blacklisted bl tok = true
        · exact ⟨⟨401, "Token has been revoked"⟩, by simp [get_current_user, hb], rfl⟩
        · exact ⟨⟨401, "Invalid token type"⟩, by
            simp [get_current_user, Bool.eq_false_iff.mpr hb, hdec, ht], rfl⟩
  · intro hbf hdec
    simp [get_current_user, hbf, hdec]
  · intro e he
    by_cases hb : TokenBlacklist.is_blacklisted bl tok = true
    · have hgcu : get_current_user tok bl now =
          .error ⟨401, "Token has been revoked"⟩ := by
        simp [get_current_user, hb]
      rw [hgcu] at he
      injection he with h
      exact Or.inl (by rw [← h])
    · have hbf := Bool.eq_false_iff.mpr hb
      cases hdec : JWTHandler.decode_token tok now with
      | error e0 =>
          have hgcu : get_current_user tok bl now = .error e0 := by
            simp [get_current_user, hbf, hdec]
          rw [hgcu] at he
          injection he with h
          rcases decode_token_error_cases tok now e0 hdec with h1 | h1
          · exact Or.inl (by rw [← h, h1])
          · exact Or.inr (by rw [← h, h1])
      | ok p0 =>
          by_cases ht : dictGet? p0 "type" = some (.vStr "access")
          · have hgcu : get_current_user tok bl now = .ok p0 := by
              simp [get_current_user, hbf, hdec, ht]
            rw [hgcu] at he
            exact absurd he (by simp)
          · have hgcu : get_current_user tok bl now =
                .error ⟨401, "Invalid token type"⟩ := by
              simp [get_current_user, hbf, hdec, ht]
            rw [hgcu] at he
            injection he with h
            exact Or.inl (by rw [← h])
  · intro p hp
    by_cases hb : TokenBlacklist.is_blacklisted bl tok = true
    · have hgcu : get_current_user tok bl now =
          .error ⟨401, "Token has been revoked"⟩ := by
        simp [get_current_user, hb]
      rw [hgcu] at hp
      exact absurd hp (by simp)
    · have hbf := Bool.eq_false_iff.mpr hb
      cases hdec : JWTHandler.decode_token tok now with
      | error e0 =>
          have hgcu : get_current_user tok bl now = .error e0 := by
            simp [get_current_user, hbf, hdec]
          rw [hgcu] at hp
          exact absurd hp (by simp)
      | ok p0 =>
          by_cases ht : dictGet? p0 "type" = some (.vStr "access")
          · have hgcu : get_current_user tok bl now = .ok p0 := by
              simp [get_current_user, hbf, hdec, ht]
            rw [hgcu] at hp
            injection hp with h
            subst h
            exact ⟨rfl, ht, hbf⟩
          · have hgcu : get_current_user tok bl now =
                .error ⟨401, "Invalid token type"⟩ := by
              simp [get_current_user, hbf, hdec, ht]
            rw [hgcu] at hp
            exact absurd hp (by simp)
  · rw [require_role_eq]
    by_cases hb : TokenBlacklist.is_blacklisted bl tok = true
    · have hgcu : get_current_user tok bl now =
          .error ⟨401, "Token has been revoked"⟩ := by
        simp [get_current_user, hb]
      rw [hgcu]
      dsimp only [Except.bind]
      apply iff_of_false
      · intro h
        injection h with h
        simp at h
      · rintro ⟨p, hp, _⟩
        exact absurd hp (by simp)
    · have hbf := Bool.eq_false_iff.mpr hb
      cases hdec : JWTHandler.decode_token tok now with
      | error e0 =>
          have hgcu : get_current_user tok bl now = .error e0 := by
            simp [get_current_user, hbf, hdec]
          rw [hgcu]
          dsimp only [Except.bind]
          apply iff_of_false
          · intro h
            injection h with h
            rcases decode_token_error_cases tok now e0 hdec with h1 | h1 <;>
              (rw [h1] at h; simp at h)
          · rintro ⟨p, hp, _⟩
            exact absurd hp (by simp)
      | ok p0 =>
          by_cases ht : dictGet? p0 "type" = some (.vStr "access")
          · have hgcu : get_current_user tok bl now = .ok p0 := by
              simp [get_current_user, hbf, hdec, ht]
            rw [hgcu]
            dsimp only [Except.bind]
            by_cases hra : roleAllowed p0 R = true
            · rw [hra]
              dsimp only [cond]
              apply iff_of_false
              · intro h
                exact absurd h (by simp)
              · rintro ⟨p, hp, hfalse⟩
                injection hp with hp
                rw [← hp, hra] at hfalse
                exact absurd hfalse (by simp)
            · have hraf : roleAllowed p0 R = false := Bool.eq_false_iff.mpr hra
              rw [hraf]
              dsimp only [cond]
              exact iff_of_true rfl ⟨p0, rfl, hraf⟩
          · have hgcu : get_current_user tok bl now =
                .error ⟨401, "Invalid token type"⟩ := by
              simp [get_current_user, hbf, hdec, ht]
            rw [hgcu]
            dsimp only [Except.bind]
            apply iff_of_false
            · intro h
              injection h with h
              simp at h
            · rintro ⟨p, hp, _⟩
              exact absurd hp (by simp)
  · intro e he
    rw [require_role_eq, he]
    rfl

/-- A student-role access token for the C2 witness, issued at time 0. -/
def c2Token : Jwt :=
  JWTHandler.create_access_token
    [("user_id", .vStr "u9"), ("email", .vStr "s@example.com"),
     ("role", .vStr "student")] none 0

/-- Witness for C2's amended theorem: a revoked token is rejected with the
401 revocation error straight through the role gate; a forged-signature
token surfaces as the 500; the revocation error is in the allowed error
set; and a valid student token hitting an admin/headmaster gate gets
403. -/
theorem C2_gate_semantics_witness :
    require_role ["admin", "headmaster"] c2Token [c2Token] 10 =
      .error ⟨401, "Token has been revoked"⟩
  ∧ get_current_user forgedToken [] 10 = .error ⟨500, "Internal server error"⟩
  ∧ ((⟨401, "Token has been revoked"⟩ : HTTPErr).status = 401
      ∨ (⟨401, "Token has been revoked"⟩ : HTTPErr) = ⟨500, "Internal server error"⟩)
  ∧ require_role ["admin", "headmaster"] c2Token [] 10 =
      .error ⟨403, "Insufficient permissions"⟩ :=
  ⟨(C2_gate_semantics c2Token [c2Token] 10 ["admin", "headmaster"]).2.2.2.2.2.1
      ⟨401, "Token has been revoked"⟩ (by rfl),
   (C2_gate_semantics forgedToken [] 10 ["admin", "headmaster"]).2.1
      (by rfl) (by rfl),
   (C2_gate_semantics c2Token [c2Token] 10 ["admin", "headmaster"]).2.2.1
      ⟨401, "Token has been revoked"⟩ (by rfl),
   (C2_gate_semantics c2Token [] 10 ["admin", "headmaster"]).2.2.2.2.1.mpr
      ⟨dictUpdate
         [("user_id", .vStr "u9"), ("email", .vStr "s@example.com"),
          ("role", .vStr "student")]
         [("exp", .vNat 1800), ("iat", .vNat 0), ("type", .vStr "access")],
       by rfl, by rfl⟩⟩
